import Mathlib

/-!
Verification of the barrel event-collection server core
(`crates/core/src/server/{events,logger,routes,mod}.rs`).

The JSON data model, the correlation table, the durable logger queue, the
session watchdog and every route handler are embedded as executable Lean
functions, translated directly from the Rust source.  Handlers are modelled
as pure functions from their parsed inputs (plus the observable channel /
delivery environment) to the response status together with the list of
envelopes handed to the logger channel and to the broadcast channel.
-/

namespace Barrel

/-- Model of `serde_json::Value`.  Objects keep their fields as an ordered
association list; a materialised `Value` has unique keys, and lookup takes
the first match.  Numbers are irrelevant to every property studied here and
are carried as integers. -/
inductive Json where
  | null
  | bool (b : Bool)
  | num (n : Int)
  | str (s : String)
  | arr (xs : List Json)
  | obj (fields : List (String × Json))

/-- Field lookup in an object's field list (first match). -/
def lookupField : List (String × Json) → String → Option Json
  | [], _ => none
  | (k, v) :: rest, key => if k = key then some v else lookupField rest key

/-- `Value::get(key)`: field lookup, `None` on non-objects. -/
def Json.getField : Json → String → Option Json
  | .obj fields, key => lookupField fields key
  | _, _ => none

/-- `Value::as_array()`. -/
def Json.asArr : Json → Option (List Json)
  | .arr xs => some xs
  | _ => none

/-- `Value::as_str()`. -/
def Json.asStr : Json → Option String
  | .str s => some s
  | _ => none

/-- `value.get(key).and_then(|v| v.as_array())`. -/
def Json.getArr (j : Json) (key : String) : Option (List Json) :=
  match j.getField key with
  | some v => v.asArr
  | none => none

/-- `value.get(key).and_then(|v| v.as_str())`. -/
def Json.getStr (j : Json) (key : String) : Option String :=
  match j.getField key with
  | some v => v.asStr
  | none => none

/-- `HookEventType` from `events.rs` (closed enumeration). -/
inductive HookEventType where
  | PreToolUse
  | PostToolUse
  | SessionStart
  | SessionEnd
  | Stop
  | SubagentStop
  | PermissionRequest
deriving DecidableEq

/-- The `Display` impl for `HookEventType` (CamelCase names). -/
def HookEventType.display : HookEventType → String
  | .PreToolUse => "PreToolUse"
  | .PostToolUse => "PostToolUse"
  | .SessionStart => "SessionStart"
  | .SessionEnd => "SessionEnd"
  | .Stop => "Stop"
  | .SubagentStop => "SubagentStop"
  | .PermissionRequest => "PermissionRequest"

/-- The serde tags accepted when deserializing `HookEventType`: the enum
carries `#[serde(rename_all = "snake_case")]`, so the accepted JSON strings
are the snake_case variant names. -/
def parseHookEventTypeTag : String → Option HookEventType
  | "pre_tool_use" => some .PreToolUse
  | "post_tool_use" => some .PostToolUse
  | "session_start" => some .SessionStart
  | "session_end" => some .SessionEnd
  | "stop" => some .Stop
  | "subagent_stop" => some .SubagentStop
  | "permission_request" => some .PermissionRequest
  | _ => none

/-- `serde_json::from_value::<HookEvent>(payload)`, reduced to the only part
the handler uses (the event type).  `HookEvent` is a struct with a field
renamed to `"type"` of type `HookEventType` plus a flattened `Value`, so
deserialization succeeds exactly when the payload is a JSON object whose
`"type"` field is a string among the snake_case tags; the flattened rest
always succeeds on an object. -/
def decodeHookEvent (payload : Json) : Option HookEventType :=
  match payload with
  | .obj _ =>
    match payload.getStr "type" with
    | some tag => parseHookEventTypeTag tag
    | none => none
  | _ => none

/-- `OtelEventType` from `events.rs`. -/
inductive OtelEventType where
  | Metrics
  | Traces
  | Logs
deriving DecidableEq

/-- The `Display` impl for `OtelEventType`. -/
def OtelEventType.display : OtelEventType → String
  | .Metrics => "otel_metrics"
  | .Traces => "otel_traces"
  | .Logs => "otel_logs"

/-- `OutboxResponseType` from `events.rs`. -/
inductive OutboxResponseType where
  | PermissionResponse
  | QuestionResponse
deriving DecidableEq

/-- The `Display` impl for `OutboxResponseType`; serde serialization with
`rename_all = "snake_case"` produces the same strings. -/
def OutboxResponseType.display : OutboxResponseType → String
  | .PermissionResponse => "permission_response"
  | .QuestionResponse => "question_response"

/-- `OutboxResponse` from `events.rs` (post-parse form: the `/outbox` route
uses the strict `Json<OutboxResponse>` extractor). -/
structure OutboxResponse where
  session_id : String
  response_type : OutboxResponseType
  response_text : String
  pane_id : Option String

/-- `serde_json::to_value(&payload)` for an `OutboxResponse`; `pane_id` is
skipped when `None` (`skip_serializing_if = "Option::is_none"`).  This
serialization is total (it cannot fail), so the handler's
`Err => 400` branch is unreachable. -/
def OutboxResponse.toJson (p : OutboxResponse) : Json :=
  .obj ([("session_id", .str p.session_id),
         ("response_type", .str p.response_type.display),
         ("response_text", .str p.response_text)] ++
        (match p.pane_id with
         | some pid => [("pane_id", .str pid)]
         | none => []))

/-- `TimestampedEvent` from `events.rs`.  The timestamp is the serialized
`DateTime<Utc>` string; `TimestampedEvent::new` takes it from the clock, so
handlers receive it as the `now` argument. -/
structure TimestampedEvent where
  timestamp : String
  event_type : String
  pane_id : String
  event : Json

/-- Serde serialization of a `TimestampedEvent` (field order as declared). -/
def TimestampedEvent.toJson (e : TimestampedEvent) : Json :=
  .obj [("timestamp", .str e.timestamp),
        ("event_type", .str e.event_type),
        ("pane_id", .str e.pane_id),
        ("event", e.event)]

/-- Serde deserialization of a `TimestampedEvent` from a JSON value. -/
def TimestampedEvent.fromJson (j : Json) : Option TimestampedEvent :=
  match j.getStr "timestamp" with
  | none => none
  | some ts =>
    match j.getStr "event_type" with
    | none => none
    | some et =>
      match j.getStr "pane_id" with
      | none => none
      | some pid =>
        match j.getField "event" with
        | none => none
        | some ev => some ⟨ts, et, pid, ev⟩

/-- The correlation table `session_to_pane: HashMap<String, String>`,
modelled as an association list whose lookup-relevant entry for a key is the
first one.  `record` is `HashMap::insert` (insert-or-overwrite), `resolve`
is `HashMap::get`. -/
abbrev Table := List (String × String)

/-- `mapping.insert(session_id, pane_id)`: insert-or-overwrite. -/
def Table.record (t : Table) (session_id pane_id : String) : Table :=
  (session_id, pane_id) :: t.filter (fun kv => kv.1 != session_id)

/-- `mapping.get(session_id)`: read-only lookup. -/
def Table.resolve (t : Table) (session_id : String) : Option String :=
  (t.find? (fun kv => kv.1 == session_id)).map (fun kv => kv.2)

/-- The logger queue capacity: `mpsc::channel::<TimestampedEvent>(1000)`. -/
def queueCapacity : Nat := 1000

/-- `EventLogger::log`: `try_send` semantics — enqueue if the bounded queue
has room, otherwise drop the event, never waiting. -/
def loggerLog (q : List TimestampedEvent) (e : TimestampedEvent) : List TimestampedEvent :=
  if q.length < queueCapacity then q ++ [e] else q

/-- The outcome of one attempt to put an event on the logger channel, as
observed by the caller. -/
inductive SendOutcome where
  | enqueued (q : List TimestampedEvent)
  | dropped
  | blocked
  | closedErr

/-- Semantics of `event_tx.send(event).await` — the enqueue operation the
route handlers actually use.  On a closed channel it fails; with room it
enqueues; on a full open queue the caller suspends (it does not drop). -/
def sendAwaitStep (closed : Bool) (q : List TimestampedEvent) (e : TimestampedEvent) :
    SendOutcome :=
  if closed then .closedErr
  else if q.length < queueCapacity then .enqueued (q ++ [e]) else .blocked

/-- `submit` of a whole sequence through `EventLogger::log`. -/
def submitAll (events : List TimestampedEvent) (q : List TimestampedEvent) :
    List TimestampedEvent :=
  events.foldl loggerLog q

/-- `writer_task` draining the queue on the successful-I/O path: each
received event is serialized and appended as one line (here: one JSON value)
to the log file. -/
def writerDrain (q : List TimestampedEvent) (file : List Json) : List Json :=
  q.foldl (fun f e => f ++ [e.toJson]) file

/-- Scan of one `attributes` array: the first attribute whose `key` is
`"session.id"` and whose `value.stringValue` is a string; any attribute
failing either test is skipped. -/
def scanAttrs : List Json → Option String
  | [] => none
  | attr :: rest =>
    if attr.getStr "key" = some "session.id" then
      match attr.getField "value" with
      | some value =>
        match value.getStr "stringValue" with
        | some s => some s
        | none => scanAttrs rest
      | none => scanAttrs rest
    else scanAttrs rest

/-- Scan of one `dataPoints` array: data points without an `attributes`
array are skipped. -/
def scanDataPoints : List Json → Option String
  | [] => none
  | dp :: rest =>
    match dp.getArr "attributes" with
    | some attrs =>
      match scanAttrs attrs with
      | some s => some s
      | none => scanDataPoints rest
    | none => scanDataPoints rest

/-- Scan of one `metrics` array: only metrics carrying a `sum` with a
`dataPoints` array are inspected; every other metric shape is skipped. -/
def scanMetrics : List Json → Option String
  | [] => none
  | metric :: rest =>
    match metric.getField "sum" with
    | some sum =>
      match sum.getArr "dataPoints" with
      | some dps =>
        match scanDataPoints dps with
        | some s => some s
        | none => scanMetrics rest
      | none => scanMetrics rest
    | none => scanMetrics rest

/-- Outcome of the resource / scope level of the walk: a session id was
found, the list was exhausted without a match, or a `?` fired (a missing
intermediate field aborted the whole function). -/
inductive WalkOutcome where
  | found (s : String)
  | exhausted
  | halted

/-- The `Option` the surrounding function ultimately returns for a given
walk outcome. -/
def WalkOutcome.toOption : WalkOutcome → Option String
  | .found s => some s
  | .exhausted => none
  | .halted => none

/-- Scope-metrics loop of `extract_otel_session_id`.  The source reads
`sm.get("metrics")?.as_array()?` inside the loop, so an element without a
`metrics` array aborts the entire extraction (`halted`), not just this
element. -/
def scanScopes : List Json → WalkOutcome
  | [] => .exhausted
  | sm :: rest =>
    match sm.getArr "metrics" with
    | none => .halted
    | some metrics =>
      match scanMetrics metrics with
      | some s => .found s
      | none => scanScopes rest

/-- Resource-metrics loop of `extract_otel_session_id`.  As above,
`rm.get("scopeMetrics")?.as_array()?` aborts the entire extraction when an
element lacks a `scopeMetrics` array, and a `halted` from the scope level
propagates. -/
def scanResources : List Json → WalkOutcome
  | [] => .exhausted
  | rm :: rest =>
    match rm.getArr "scopeMetrics" with
    | none => .halted
    | some sms =>
      match scanScopes sms with
      | .found s => .found s
      | .halted => .halted
      | .exhausted => scanResources rest

/-- `extract_otel_session_id` from `routes.rs`. -/
def extract_otel_session_id (payload : Json) : Option String :=
  match payload.getArr "resourceMetrics" with
  | none => none
  | some rms => (scanResources rms).toOption

/-- Modelled from the spec: the legacy OTEL correlation walk as the spec
describes it in section 4.4 — walk `resourceMetrics → scopeMetrics →
metrics → sum → dataPoints → attributes` for the first `session.id`
attribute, where "any missing intermediate field simply yields no match"
for that element (the walk continues with the next element, it is never
aborted).  Used only to compare the spec's wording with the source's
`extract_otel_session_id`. -/
def specScanSMs : List Json → Option String
  | [] => none
  | sm :: rest =>
    match sm.getArr "metrics" with
    | none => specScanSMs rest
    | some metrics =>
      match scanMetrics metrics with
      | some s => some s
      | none => specScanSMs rest

/-- Modelled from the spec: resource level of the permissive walk, see
`specScanSMs`. -/
def specScanRMs : List Json → Option String
  | [] => none
  | rm :: rest =>
    match rm.getArr "scopeMetrics" with
    | none => specScanRMs rest
    | some sms =>
      match specScanSMs sms with
      | some s => some s
      | none => specScanRMs rest

/-- Modelled from the spec: top level of the permissive walk, see
`specScanSMs`. -/
def specExtractSessionId (payload : Json) : Option String :=
  match payload.getArr "resourceMetrics" with
  | none => none
  | some rms => specScanRMs rms

/-- Decidable well-formedness of an OTLP metrics document with respect to
the abort points of the source walk: every `resourceMetrics` element has a
`scopeMetrics` array and every element of those has a `metrics` array. -/
def wfRm (rm : Json) : Bool :=
  match rm.getArr "scopeMetrics" with
  | none => false
  | some sms => sms.all (fun sm => (sm.getArr "metrics").isSome)

/-- Well-formedness of a whole document, see `wfRm`. -/
def wfMetricsDoc (payload : Json) : Bool :=
  match payload.getArr "resourceMetrics" with
  | none => true
  | some rms => rms.all wfRm

/-- The correlation id computed by `handle_otel_event` for a legacy (no
pane in the URL) OTEL request: resolve the extracted session id through the
table, falling back to the sentinel `"otel"`. -/
def legacyCorrelation (table : Table) (payload : Json) : String :=
  match extract_otel_session_id payload with
  | some sid =>
    match table.resolve sid with
    | some pane => pane
    | none => "otel"
  | none => "otel"

/-- What a route handler did: response status and body, the envelopes put
on the logger channel and on the broadcast channel, and the correlation
table afterwards. -/
structure HandlerOut where
  status : Nat
  body : String
  logged : List TimestampedEvent
  broadcast : List TimestampedEvent
  table : Table

/-- `handle_hook_event` from `routes.rs`.  `closed` is whether the logger
channel's receiver is gone (the only way `send(..).await` fails); the table
insert happens before the send, so it survives even a 500. -/
def handle_hook_event (closed : Bool) (table : Table) (now pane_id : String)
    (payload : Json) : HandlerOut :=
  let event_type :=
    match decodeHookEvent payload with
    | some t => t.display
    | none => "unknown_hook"
  let table' :=
    match payload.getStr "session_id" with
    | some sid => table.record sid pane_id
    | none => table
  let event : TimestampedEvent := ⟨now, event_type, pane_id, payload⟩
  if closed then ⟨500, "Failed to log event", [], [], table'⟩
  else ⟨200, "OK", [event], [event], table'⟩

/-- `handle_otel_event_with_pane` from `routes.rs`: the pane id comes from
the URL, no table access. -/
def handle_otel_event_with_pane (closed : Bool) (table : Table) (now : String)
    (t : OtelEventType) (pane_id : String) (payload : Json) : HandlerOut :=
  let event : TimestampedEvent := ⟨now, t.display, pane_id, payload⟩
  if closed then ⟨500, "Failed to log event", [], [], table⟩
  else ⟨200, "OK", [event], [event], table⟩

/-- `handle_otel_event` from `routes.rs` (legacy OTEL routes): correlate via
`extract_otel_session_id` and the table, then log and broadcast. -/
def handle_otel_event (closed : Bool) (table : Table) (now : String)
    (t : OtelEventType) (payload : Json) : HandlerOut :=
  let pane_id := legacyCorrelation table payload
  let event : TimestampedEvent := ⟨now, t.display, pane_id, payload⟩
  if closed then ⟨500, "Failed to log event", [], [], table⟩
  else ⟨200, "OK", [event], [event], table⟩

/-- Observable outcomes of the delivery steps of `handle_outbox`: whether a
tmux session is configured, and whether each fallible external operation
(`Command::output` for text and Enter, `create_dir_all`, `fs::write`)
returns `Ok`.  A non-zero exit status from tmux is still `Ok` for
`Command::output` and the handler does not inspect it. -/
structure DeliveryEnv where
  tmux_session : Option String
  textOk : Bool
  enterOk : Bool
  mkdirOk : Bool
  writeOk : Bool

/-- Whether the delivery phase of `handle_outbox` succeeds in the given
environment. -/
def deliveryOk (env : DeliveryEnv) : Bool :=
  match env.tmux_session with
  | some _ => env.textOk && env.enterOk
  | none => env.mkdirOk && env.writeOk

/-- `handle_outbox` from `routes.rs`.  The envelope uses the payload's
`session_id` as its `pane_id`; it is logged and broadcast before any
delivery is attempted, and a delivery failure returns 500 without undoing
either. -/
def handle_outbox (closed : Bool) (env : DeliveryEnv) (table : Table) (now : String)
    (p : OutboxResponse) : HandlerOut :=
  let event : TimestampedEvent := ⟨now, p.response_type.display, p.session_id, p.toJson⟩
  if closed then ⟨500, "Failed to log event", [], [], table⟩
  else
    match env.tmux_session with
    | some _ =>
      if env.textOk then
        if env.enterOk then ⟨200, "OK", [event], [event], table⟩
        else ⟨500, "Failed to send response to tmux", [event], [event], table⟩
      else ⟨500, "Failed to send response to tmux", [event], [event], table⟩
    | none =>
      if env.mkdirOk then
        if env.writeOk then ⟨200, "OK", [event], [event], table⟩
        else ⟨500, "Failed to write response file", [event], [event], table⟩
      else ⟨500, "Failed to write response file", [event], [event], table⟩

/-- One `tmux has-session` invocation as the watchdog observes it:
`Except.ok b` means the process ran and `b` is `status.success()`;
`Except.error e` means `Command::output()` itself failed. -/
abbrev CheckResult := Except String Bool

/-- What a watchdog run did on a finite trace of check results. -/
structure WatchdogRun where
  signaled : Bool
  checksConsumed : Nat

/-- `session_watchdog` from `server/mod.rs`, as a function of the trace of
check results: `Ok` with a non-success exit signals shutdown and breaks the
loop; `Ok` with success and `Err` (a failed invocation, logged) both
continue to the next interval. -/
def session_watchdog : List CheckResult → WatchdogRun
  | [] => ⟨false, 0⟩
  | check :: rest =>
    match check with
    | .ok false => ⟨true, 1⟩
    | .ok true =>
      let r := session_watchdog rest
      ⟨r.signaled, r.checksConsumed + 1⟩
    | .error _ =>
      let r := session_watchdog rest
      ⟨r.signaled, r.checksConsumed + 1⟩

/-- The hook body of the end-to-end scenario:
`{"type":"SessionStart","session_id":"abc"}`. -/
def c1Body : Json :=
  .obj [("type", .str "SessionStart"), ("session_id", .str "abc")]

/-- An OTLP attribute `{"key":"session.id","value":{"stringValue":sid}}`. -/
def sessionIdAttr (sid : String) : Json :=
  .obj [("key", .str "session.id"), ("value", .obj [("stringValue", .str sid)])]

/-- A well-formed `resourceMetrics` element whose single sum data point
carries `session.id = sid`. -/
def goodRm (sid : String) : Json :=
  .obj [("scopeMetrics", .arr
    [.obj [("metrics", .arr
      [.obj [("sum", .obj [("dataPoints", .arr
        [.obj [("attributes", .arr [sessionIdAttr sid])]])])]])]])]

/-- A minimal OTLP metrics document carrying `session.id = sid`. -/
def otlpDoc (sid : String) : Json :=
  .obj [("resourceMetrics", .arr [goodRm sid])]

/-- A metrics document whose first `resourceMetrics` element lacks a
`scopeMetrics` array while the second carries `session.id = "abc"`. -/
def c5Payload : Json :=
  .obj [("resourceMetrics", .arr [Json.obj [], goodRm "abc"])]

/-- A correlation table mapping session `"abc"` to pane `"p1"`. -/
def c5Table : Table := [("abc", "p1")]

/-- An arbitrary concrete envelope. -/
def dummyEvent : TimestampedEvent := ⟨"t", "k", "p", .null⟩

/-- A logger queue at capacity. -/
def fullQueue : List TimestampedEvent := List.replicate queueCapacity dummyEvent

/-- An outbox payload whose `session_id` is the empty string. -/
def c6Response : OutboxResponse := ⟨"", .PermissionResponse, "y", none⟩

/-- A delivery environment with no tmux session and succeeding file
operations. -/
def c6Env : DeliveryEnv := ⟨none, true, true, true, true⟩

/-- C1, counterexample: posting `{"type":"SessionStart","session_id":"abc"}`
to `/events/pane-1` does not log `event_kind = "SessionStart"`.
`HookEventType` carries `#[serde(rename_all = "snake_case")]`, so the tag
`"SessionStart"` fails to deserialize and the handler falls back to
`"unknown_hook"`. -/
theorem c1_hook_kind_counterexample :
    (handle_hook_event false [] "t0" "pane-1" c1Body).logged.map
      TimestampedEvent.event_type = ["unknown_hook"] ∧
    (["unknown_hook"] : List String) ≠ ["SessionStart"] :=
  ⟨rfl, by decide⟩

/-- C1, amended end-to-end scenario: the POST of
`{"type":"SessionStart","session_id":"abc"}` to `/events/pane-1` returns
200 and logs one envelope with `pane_id = "pane-1"` but with
`event_kind = "unknown_hook"` (the snake_case serde tags reject
`"SessionStart"`); the `session_id` is still recorded, so a subsequent POST
to `/v1/metrics` of an OTLP metrics document carrying `session.id = "abc"`
is logged with `pane_id = "pane-1"` and returns 200. -/
theorem c1_end_to_end_amended :
    (handle_hook_event false [] "t0" "pane-1" c1Body).status = 200 ∧
    (handle_hook_event false [] "t0" "pane-1" c1Body).logged =
      [⟨"t0", "unknown_hook", "pane-1", c1Body⟩] ∧
    (handle_hook_event false [] "t0" "pane-1" c1Body).broadcast =
      [⟨"t0", "unknown_hook", "pane-1", c1Body⟩] ∧
    (handle_otel_event false (handle_hook_event false [] "t0" "pane-1" c1Body).table
      "t1" OtelEventType.Metrics (otlpDoc "abc")).logged =
      [⟨"t1", "otel_metrics", "pane-1", otlpDoc "abc"⟩] ∧
    (handle_otel_event false (handle_hook_event false [] "t0" "pane-1" c1Body).table
      "t1" OtelEventType.Metrics (otlpDoc "abc")).status = 200 :=
  ⟨rfl, rfl, rfl, rfl, rfl⟩

/-- C7: any JSON payload that fails to deserialize as a `HookEvent` is
still accepted by `/events/{pane_id}`: the event kind falls back to
`"unknown_hook"`, the body is logged and broadcast unchanged, and the
response is 200. -/
theorem c7_unknown_hook_logged (table : Table) (now pane_id : String) (payload : Json)
    (h : decodeHookEvent payload = none) :
    (handle_hook_event false table now pane_id payload).status = 200 ∧
    (handle_hook_event false table now pane_id payload).logged =
      [⟨now, "unknown_hook", pane_id, payload⟩] ∧
    (handle_hook_event false table now pane_id payload).broadcast =
      [⟨now, "unknown_hook", pane_id, payload⟩] := by
  simp [handle_hook_event, h]

/-- C7, witness: the body `{"type":"SessionStart","session_id":"abc"}`
fails to parse as a `HookEvent` and is logged as `"unknown_hook"` with
status 200. -/
theorem c7_unknown_hook_logged_witness :
    decodeHookEvent c1Body = none ∧
    (handle_hook_event false [] "t0" "pane-1" c1Body).status = 200 ∧
    (handle_hook_event false [] "t0" "pane-1" c1Body).logged =
      [⟨"t0", "unknown_hook", "pane-1", c1Body⟩] :=
  ⟨rfl, (c7_unknown_hook_logged [] "t0" "pane-1" c1Body rfl).1,
    (c7_unknown_hook_logged [] "t0" "pane-1" c1Body rfl).2.1⟩

/-- C9: recording `(session_id, pane_id)` twice is the same table as
recording it once (insert-or-overwrite), resolving afterwards returns the
pane id, and the legacy OTEL handler's table lookup is read-only (the table
after the request equals the table before). -/
theorem c9_record_overwrite (t : Table) (s p now : String) (ty : OtelEventType)
    (payload : Json) (closed : Bool) :
    (t.record s p).record s p = t.record s p ∧
    ((t.record s p).record s p).resolve s = some p ∧
    (t.record s p).resolve s = some p ∧
    (handle_otel_event closed t now ty payload).table = t := by
  refine ⟨?_, ?_, ?_, ?_⟩
  · simp [Table.record, List.filter_filter]
  · simp [Table.record, Table.resolve, List.find?]
  · simp [Table.record, Table.resolve, List.find?]
  · cases closed <;> simp [handle_otel_event]

/-- C10: the legacy OTEL extraction aborts the whole search when a
`resourceMetrics` element lacks a `scopeMetrics` array or a `scopeMetrics`
element lacks a `metrics` array — even when a later element of the same
document carries a `session.id` attribute — and only metrics with a `sum`
field are ever inspected. -/
theorem c10_walk_abort_and_sum_only :
    (∀ (bad : Json) (rest : List Json), bad.getArr "scopeMetrics" = none →
      extract_otel_session_id (.obj [("resourceMetrics", .arr (bad :: rest))]) = none) ∧
    (∀ (smBad : Json) (smRest rmRest : List Json), smBad.getArr "metrics" = none →
      extract_otel_session_id
        (.obj [("resourceMetrics",
          .arr (.obj [("scopeMetrics", .arr (smBad :: smRest))] :: rmRest))]) = none) ∧
    (∀ (metric : Json) (mRest : List Json), metric.getField "sum" = none →
      scanMetrics (metric :: mRest) = scanMetrics mRest) := by
  refine ⟨?_, ?_, ?_⟩
  · intro bad rest h
    have h1 : (Json.obj [("resourceMetrics", Json.arr (bad :: rest))]).getArr
        "resourceMetrics" = some (bad :: rest) := rfl
    simp [extract_otel_session_id, h1, scanResources, h, WalkOutcome.toOption]
  · intro smBad smRest rmRest h
    have h1 : (Json.obj [("resourceMetrics",
        Json.arr (Json.obj [("scopeMetrics", Json.arr (smBad :: smRest))] :: rmRest))]).getArr
        "resourceMetrics" =
        some (Json.obj [("scopeMetrics", Json.arr (smBad :: smRest))] :: rmRest) := rfl
    have h2 : (Json.obj [("scopeMetrics", Json.arr (smBad :: smRest))]).getArr
        "scopeMetrics" = some (smBad :: smRest) := rfl
    simp [extract_otel_session_id, h1, scanResources, h2, scanScopes, h,
      WalkOutcome.toOption]
  · intro metric mRest h
    simp [scanMetrics, h]

/-- C10, witness: a document whose first `resourceMetrics` element is `{}`
yields no session id although its second element carries one; a document
whose first `scopeMetrics` element is `{}` likewise; and a `gauge` metric
is skipped by the metrics scan. -/
theorem c10_walk_abort_witness :
    extract_otel_session_id c5Payload = none ∧
    extract_otel_session_id
      (.obj [("resourceMetrics",
        .arr [.obj [("scopeMetrics", .arr [Json.obj [], goodRm "abc"])]])]) = none ∧
    scanMetrics [Json.obj [("gauge", Json.null)]] = scanMetrics [] :=
  ⟨c10_walk_abort_and_sum_only.1 (Json.obj []) [goodRm "abc"] rfl,
    c10_walk_abort_and_sum_only.2.1 (Json.obj []) [goodRm "abc"] [] rfl,
    c10_walk_abort_and_sum_only.2.2 (Json.obj [("gauge", Json.null)]) [] rfl⟩

/-- C5, counterexample: the claim's walk would find `session.id = "abc"` in
the second `resourceMetrics` element and resolve it to `"p1"`, but the
source walk aborts at the first element (which lacks `scopeMetrics`), so
the request is actually correlated to the sentinel `"otel"`. -/
theorem c5_walk_abort_counterexample :
    extract_otel_session_id c5Payload = none ∧
    specExtractSessionId c5Payload = some "abc" ∧
    (handle_otel_event false c5Table "t" OtelEventType.Metrics c5Payload).logged.map
      TimestampedEvent.pane_id = ["otel"] ∧
    Table.resolve c5Table "abc" = some "p1" ∧
    ("otel" : String) ≠ "p1" :=
  ⟨rfl, rfl, rfl, rfl, by decide⟩

/-- Under well-formedness of the scope level, the source scope scan agrees
with the spec's permissive scan and never halts. -/
theorem scanScopes_wf (sms : List Json)
    (h : sms.all (fun sm => (sm.getArr "metrics").isSome) = true) :
    (scanScopes sms).toOption = specScanSMs sms ∧ scanScopes sms ≠ WalkOutcome.halted := by
  induction sms with
  | nil => exact ⟨rfl, fun hc => WalkOutcome.noConfusion hc⟩
  | cons sm rest ih =>
    rw [List.all_cons, Bool.and_eq_true] at h
    obtain ⟨ms, hms⟩ := Option.isSome_iff_exists.mp h.1
    obtain ⟨ih1, ih2⟩ := ih h.2
    cases hscan : scanMetrics ms with
    | some s =>
      refine ⟨?_, ?_⟩
      · simp [scanScopes, specScanSMs, hms, hscan, WalkOutcome.toOption]
      · simp [scanScopes, hms, hscan]
    | none =>
      refine ⟨?_, ?_⟩
      · simp [scanScopes, specScanSMs, hms, hscan, ih1]
      · simp [scanScopes, hms, hscan]
        exact ih2

/-- Under well-formedness of the whole document, the source resource scan
agrees with the spec's permissive scan. -/
theorem scanResources_wf (rms : List Json) (h : rms.all wfRm = true) :
    (scanResources rms).toOption = specScanRMs rms := by
  induction rms with
  | nil => rfl
  | cons rm rest ih =>
    rw [List.all_cons, Bool.and_eq_true] at h
    have h1 := h.1
    rw [wfRm] at h1
    cases hsm : rm.getArr "scopeMetrics" with
    | none => rw [hsm] at h1; exact absurd h1 (by simp)
    | some sms =>
      rw [hsm] at h1
      obtain ⟨hs1, hs2⟩ := scanScopes_wf sms h1
      cases hsc : scanScopes sms with
      | found s =>
        rw [hsc] at hs1
        simp [scanResources, specScanRMs, hsm, hsc, ← hs1, WalkOutcome.toOption]
      | halted => exact absurd hsc hs2
      | exhausted =>
        rw [hsc] at hs1
        simp [scanResources, specScanRMs, hsm, hsc, ← hs1, WalkOutcome.toOption]
        exact ih h.2

/-- C5, amended: the correlation id for a legacy OTEL request is computed
by the spec's walk provided every `resourceMetrics` element has a
`scopeMetrics` array and every such element has a `metrics` array (the
source aborts the whole walk otherwise); unconditionally, an extraction
miss or an unresolved session id yields the sentinel `"otel"`, a resolved
id yields its pane, and the handler never errors (it logs, broadcasts and
returns 200). -/
theorem c5_correlation_amended (payload : Json) (table : Table) (now : String)
    (t : OtelEventType) (h : wfMetricsDoc payload = true) :
    extract_otel_session_id payload = specExtractSessionId payload ∧
    (handle_otel_event false table now t payload).status = 200 ∧
    (handle_otel_event false table now t payload).logged =
      [⟨now, t.display, legacyCorrelation table payload, payload⟩] ∧
    (handle_otel_event false table now t payload).broadcast =
      (handle_otel_event false table now t payload).logged ∧
    (∀ q : Json, extract_otel_session_id q = none → legacyCorrelation table q = "otel") ∧
    (∀ (q : Json) (s : String), extract_otel_session_id q = some s →
      Table.resolve table s = none → legacyCorrelation table q = "otel") ∧
    (∀ (q : Json) (s pane : String), extract_otel_session_id q = some s →
      Table.resolve table s = some pane → legacyCorrelation table q = pane) := by
  refine ⟨?_, by simp [handle_otel_event], by simp [handle_otel_event],
    by simp [handle_otel_event], ?_, ?_, ?_⟩
  · rw [wfMetricsDoc] at h
    rw [extract_otel_session_id, specExtractSessionId]
    cases hr : payload.getArr "resourceMetrics" with
    | none => rfl
    | some rms => rw [hr] at h; exact scanResources_wf rms h
  · intro q hq; simp [legacyCorrelation, hq]
  · intro q s hq hres; simp [legacyCorrelation, hq, hres]
  · intro q s pane hq hres; simp [legacyCorrelation, hq, hres]

/-- C5, witness: the minimal well-formed metrics document satisfies the
well-formedness hypothesis, and on it the source extraction agrees with
the spec walk; with an empty table the envelope is filed under `"otel"`. -/
theorem c5_correlation_amended_witness :
    wfMetricsDoc (otlpDoc "abc") = true ∧
    extract_otel_session_id (otlpDoc "abc") = specExtractSessionId (otlpDoc "abc") ∧
    legacyCorrelation [] (otlpDoc "abc") = "otel" :=
  ⟨rfl, (c5_correlation_amended (otlpDoc "abc") [] "t" OtelEventType.Metrics rfl).1,
    (c5_correlation_amended (otlpDoc "abc") [] "t" OtelEventType.Metrics rfl).2.2.2.2.2.1
      (otlpDoc "abc") "abc" rfl rfl⟩

/-- A watchdog trace without a ran-and-failed check never signals shutdown:
successful checks and failed invocations (transient errors) both continue
the loop. -/
theorem watchdog_no_negative (trace : List CheckResult)
    (h : ∀ r ∈ trace, r ≠ Except.ok false) :
    session_watchdog trace = ⟨false, trace.length⟩ := by
  induction trace with
  | nil => rfl
  | cons r rest ih =>
    have hr := h r (List.mem_cons_self r rest)
    have hrest : ∀ x ∈ rest, x ≠ Except.ok false :=
      fun x hx => h x (List.mem_cons_of_mem r hx)
    match r, hr with
    | .ok true, _ => simp [session_watchdog, ih hrest]
    | .ok false, hr => exact absurd rfl hr
    | .error e, _ => simp [session_watchdog, ih hrest]

/-- C4, counterexample: a single check that runs and exits non-zero —
whatever caused the non-zero exit, the watchdog cannot observe the cause —
immediately signals shutdown and exits the loop, contradicting the claim
that a non-zero exit caused by a transient error is treated as "still
running" and never triggers shutdown. -/
theorem c4_nonzero_exit_counterexample :
    (session_watchdog [Except.ok false]).signaled = true ∧
    (session_watchdog [Except.ok false]).checksConsumed = 1 :=
  ⟨rfl, rfl⟩

/-- C4, amended: the watchdog signals shutdown and exits its loop at the
first check that ran and returned a non-success exit status, regardless of
cause; a check whose invocation itself fails (`Command::output()` returns
`Err`) is logged and the loop continues, and a trace with no ran-and-failed
check never signals shutdown. -/
theorem c4_watchdog_amended (pre rest : List CheckResult)
    (hpre : ∀ r ∈ pre, r ≠ Except.ok false) :
    session_watchdog (pre ++ Except.ok false :: rest) = ⟨true, pre.length + 1⟩ ∧
    (∀ trace : List CheckResult, (∀ r ∈ trace, r ≠ Except.ok false) →
      session_watchdog trace = ⟨false, trace.length⟩) := by
  refine ⟨?_, fun trace h => watchdog_no_negative trace h⟩
  induction pre with
  | nil => rfl
  | cons r pre' ih =>
    have hr := hpre r (List.mem_cons_self r pre')
    have hpre' : ∀ x ∈ pre', x ≠ Except.ok false :=
      fun x hx => hpre x (List.mem_cons_of_mem r hx)
    match r, hr with
    | .ok true, _ => simp [session_watchdog, ih hpre']
    | .ok false, hr => exact absurd rfl hr
    | .error e, _ => simp [session_watchdog, ih hpre']

/-- C4, witness: after a failed invocation and a successful check, the
first non-success exit signals shutdown on the third check. -/
theorem c4_watchdog_amended_witness :
    session_watchdog [Except.error "spawn failed", Except.ok true, Except.ok false] =
      ⟨true, 3⟩ ∧
    session_watchdog [Except.error "spawn failed", Except.ok true] = ⟨false, 2⟩ :=
  ⟨(c4_watchdog_amended [Except.error "spawn failed", Except.ok true] []
      (by simp)).1,
    (c4_watchdog_amended [] [] (by simp)).2
      [Except.error "spawn failed", Except.ok true] (by simp)⟩

/-- C2, counterexample: the route handlers enqueue with
`event_tx.send(event).await`, not with `EventLogger::log`'s `try_send`; on
a full open queue that send suspends the caller rather than dropping the
envelope, so the claim that every request handler's enqueue drops-on-full
without awaiting is false.  (`EventLogger::log`, which does drop, is never
called by a handler: the handlers hold `logger.sender()`.) -/
theorem c2_handler_send_blocks_counterexample :
    sendAwaitStep false fullQueue dummyEvent = SendOutcome.blocked ∧
    SendOutcome.blocked ≠ SendOutcome.dropped ∧
    loggerLog fullQueue dummyEvent = fullQueue := by
  refine ⟨?_, fun hc => SendOutcome.noConfusion hc, ?_⟩
  · simp [sendAwaitStep, fullQueue]
  · simp [loggerLog, fullQueue]

/-- C2, amended: `EventLogger::log` is non-blocking and drops on a full
queue, but the request handlers enqueue with the awaiting `send`, which on
a full open queue suspends the caller (the envelope is neither dropped nor
an error) and fails only when the receiver is closed; accordingly a handler
returns 500 exactly when the channel is structurally closed, and
queue-fullness is never reported to the HTTP caller. -/
theorem c2_enqueue_amended (q : List TimestampedEvent) (e : TimestampedEvent)
    (closed : Bool) (table : Table) (now pane_id : String) (payload : Json)
    (t : OtelEventType) :
    (queueCapacity ≤ q.length → loggerLog q e = q) ∧
    (q.length < queueCapacity → loggerLog q e = q ++ [e]) ∧
    (queueCapacity ≤ q.length → sendAwaitStep false q e = SendOutcome.blocked) ∧
    (q.length < queueCapacity → sendAwaitStep false q e = SendOutcome.enqueued (q ++ [e])) ∧
    sendAwaitStep true q e = SendOutcome.closedErr ∧
    ((handle_hook_event closed table now pane_id payload).status = 500 ↔ closed = true) ∧
    ((handle_otel_event closed table now t payload).status = 500 ↔ closed = true) := by
  refine ⟨?_, ?_, ?_, ?_, ?_, ?_, ?_⟩
  · intro h; simp [loggerLog, Nat.not_lt.mpr h]
  · intro h; simp [loggerLog, h]
  · intro h; simp [sendAwaitStep, Nat.not_lt.mpr h]
  · intro h; simp [sendAwaitStep, h]
  · simp [sendAwaitStep]
  · cases closed <;> simp [handle_hook_event]
  · cases closed <;> simp [handle_otel_event]

/-- C2, witness: on the concrete full queue, `EventLogger::log` drops and
the handlers' awaiting send blocks; on the closed channel the send fails,
and the hook handler then answers 500. -/
theorem c2_enqueue_amended_witness :
    loggerLog fullQueue dummyEvent = fullQueue ∧
    sendAwaitStep false fullQueue dummyEvent = SendOutcome.blocked ∧
    sendAwaitStep true fullQueue dummyEvent = SendOutcome.closedErr ∧
    (handle_hook_event true [] "t" "p" Json.null).status = 500 :=
  ⟨(c2_enqueue_amended fullQueue dummyEvent false [] "t" "p" Json.null
      OtelEventType.Metrics).1 (by simp [fullQueue]),
    (c2_enqueue_amended fullQueue dummyEvent false [] "t" "p" Json.null
      OtelEventType.Metrics).2.2.1 (by simp [fullQueue]),
    (c2_enqueue_amended fullQueue dummyEvent false [] "t" "p" Json.null
      OtelEventType.Metrics).2.2.2.2.1,
    (c2_enqueue_amended fullQueue dummyEvent true [] "t" "p" Json.null
      OtelEventType.Metrics).2.2.2.2.2.1.mpr rfl⟩

/-- C3: for every `/outbox` request on an open logger channel, the envelope
(keyed by the payload's `session_id`) is put on the logger channel and
broadcast before delivery is attempted; the handler answers 200 exactly
when delivery succeeds and 500 otherwise, and a delivery failure does not
roll back the logged or broadcast envelope. -/
theorem c3_outbox_no_rollback (env : DeliveryEnv) (table : Table) (now : String)
    (p : OutboxResponse) :
    (handle_outbox false env table now p).logged =
      [⟨now, p.response_type.display, p.session_id, p.toJson⟩] ∧
    (handle_outbox false env table now p).broadcast =
      (handle_outbox false env table now p).logged ∧
    ((handle_outbox false env table now p).status = 200 ↔ deliveryOk env = true) ∧
    ((handle_outbox false env table now p).status = 200 ∨
      (handle_outbox false env table now p).status = 500) := by
  obtain ⟨ts, textOk, enterOk, mkdirOk, writeOk⟩ := env
  cases ts <;> cases textOk <;> cases enterOk <;> cases mkdirOk <;> cases writeOk <;>
    simp [handle_outbox, deliveryOk]

/-- C6, counterexample: a syntactically valid `/outbox` request whose
`session_id` is the empty string is accepted (200) and its envelope is
logged and broadcast with the empty correlation id — the non-emptiness
invariant does not hold for the outbox handler. -/
theorem c6_empty_correlation_counterexample :
    (handle_outbox false c6Env [] "t" c6Response).status = 200 ∧
    (handle_outbox false c6Env [] "t" c6Response).logged.map
      TimestampedEvent.pane_id = [""] ∧
    (handle_outbox false c6Env [] "t" c6Response).broadcast.map
      TimestampedEvent.pane_id = [""] ∧
    ¬ (∀ e ∈ (handle_outbox false c6Env [] "t" c6Response).logged, e.pane_id ≠ "") := by
  refine ⟨rfl, rfl, rfl, fun h => ?_⟩
  exact h ⟨"t", "permission_response", "", c6Response.toJson⟩ (List.mem_singleton.mpr rfl) rfl

/-- The legacy correlation id is never empty when every pane recorded in
the table is non-empty: it is either a table value or the sentinel
`"otel"`. -/
theorem legacyCorrelation_ne_empty (table : Table) (payload : Json)
    (htable : ∀ kv ∈ table, kv.2 ≠ "") :
    legacyCorrelation table payload ≠ "" := by
  rw [legacyCorrelation]
  cases hx : extract_otel_session_id payload with
  | none => simp
  | some sid =>
    cases hres : Table.resolve table sid with
    | none => simp [hres]
    | some pane =>
      simp only [hres]
      rw [Table.resolve] at hres
      obtain ⟨kv, hfind, hkv⟩ := Option.map_eq_some'.mp hres
      rw [← hkv]
      exact htable kv (List.mem_of_find?_eq_some hfind)

/-- C6, amended: every envelope the ingestion handlers (hook events and
OTEL, with or without a pane in the URL) put on the logger channel or the
broadcast channel has a non-empty correlation id, with the sentinel
`"otel"` as the legacy fallback — provided the pane id from the URL path is
non-empty and every pane recorded in the table is non-empty (both hold for
paths the router matches); the hook handler preserves the latter invariant.
The outbox handler, by contrast, uses the request's `session_id` verbatim,
which may be empty. -/
theorem c6_nonempty_correlation_amended (closed : Bool) (table : Table)
    (now pane_id : String) (payload : Json) (t : OtelEventType)
    (hpane : pane_id ≠ "") (htable : ∀ kv ∈ table, kv.2 ≠ "") :
    (∀ e ∈ (handle_hook_event closed table now pane_id payload).logged, e.pane_id ≠ "") ∧
    (∀ e ∈ (handle_hook_event closed table now pane_id payload).broadcast,
      e.pane_id ≠ "") ∧
    (∀ kv ∈ (handle_hook_event closed table now pane_id payload).table, kv.2 ≠ "") ∧
    (∀ e ∈ (handle_otel_event_with_pane closed table now t pane_id payload).logged,
      e.pane_id ≠ "") ∧
    (∀ e ∈ (handle_otel_event_with_pane closed table now t pane_id payload).broadcast,
      e.pane_id ≠ "") ∧
    (∀ e ∈ (handle_otel_event closed table now t payload).logged, e.pane_id ≠ "") ∧
    (∀ e ∈ (handle_otel_event closed table now t payload).broadcast, e.pane_id ≠ "") ∧
    legacyCorrelation table payload ≠ "" := by
  have hleg := legacyCorrelation_ne_empty table payload htable
  refine ⟨?_, ?_, ?_, ?_, ?_, ?_, ?_, hleg⟩
  · cases closed <;> simp [handle_hook_event, hpane]
  · cases closed <;> simp [handle_hook_event, hpane]
  · cases closed <;>
      · simp only [handle_hook_event]
        cases hs : payload.getStr "session_id" with
        | none => simpa using htable
        | some sid =>
          simp only [Table.record]
          intro kv hkv
          rcases List.mem_cons.mp hkv with heq | hmem
          · rw [heq]; exact hpane
          · exact htable kv (List.mem_of_mem_filter hmem)
  · cases closed <;> simp [handle_otel_event_with_pane, hpane]
  · cases closed <;> simp [handle_otel_event_with_pane, hpane]
  · cases closed <;> simp [handle_otel_event, hleg]
  · cases closed <;> simp [handle_otel_event, hleg]

/-- C6, witness: with a non-empty URL pane id and a table whose panes are
non-empty, the concrete hook request and the legacy OTEL request log only
envelopes with non-empty correlation ids. -/
theorem c6_nonempty_correlation_amended_witness :
    ("pane-1" : String) ≠ "" ∧
    (∀ e ∈ (handle_hook_event false [("a", "p")] "t" "pane-1" Json.null).logged,
      e.pane_id ≠ "") ∧
    legacyCorrelation [("a", "p")] Json.null ≠ "" :=
  ⟨by decide,
    (c6_nonempty_correlation_amended false [("a", "p")] "t" "pane-1" Json.null
      OtelEventType.Metrics (by decide) (by decide)).1,
    (c6_nonempty_correlation_amended false [("a", "p")] "t" "pane-1" Json.null
      OtelEventType.Metrics (by decide) (by decide)).2.2.2.2.2.2.2⟩

/-- Submitting a sequence that fits in the remaining queue capacity
enqueues every event in order. -/
theorem submitAll_small (events : List TimestampedEvent) :
    ∀ q : List TimestampedEvent, q.length + events.length ≤ queueCapacity →
      submitAll events q = q ++ events := by
  induction events with
  | nil => intro q h; simp [submitAll]
  | cons e rest ih =>
    intro q h
    have hlt : q.length < queueCapacity := by
      rw [List.length_cons] at h; omega
    have hstep : loggerLog q e = q ++ [e] := by simp [loggerLog, hlt]
    have hlen : (q ++ [e]).length + rest.length ≤ queueCapacity := by
      rw [List.length_append, List.length_singleton]
      rw [List.length_cons] at h; omega
    calc submitAll (e :: rest) q = submitAll rest (loggerLog q e) := rfl
      _ = submitAll rest (q ++ [e]) := by rw [hstep]
      _ = (q ++ [e]) ++ rest := ih (q ++ [e]) hlen
      _ = q ++ e :: rest := by simp

/-- Draining the queue appends one serialized line per queued event. -/
theorem writerDrain_map (q : List TimestampedEvent) :
    ∀ file : List Json, writerDrain q file = file ++ q.map TimestampedEvent.toJson := by
  induction q with
  | nil => intro file; simp [writerDrain]
  | cons e rest ih =>
    intro file
    calc writerDrain (e :: rest) file = writerDrain rest (file ++ [e.toJson]) := rfl
      _ = (file ++ [e.toJson]) ++ rest.map TimestampedEvent.toJson := ih _
      _ = file ++ (e :: rest).map TimestampedEvent.toJson := by simp

/-- Serialization of an envelope deserializes back to the same envelope. -/
theorem toJson_fromJson (e : TimestampedEvent) :
    TimestampedEvent.fromJson e.toJson = some e := by
  cases e
  rfl

/-- C8: a sequence of at most `queueCapacity` envelopes submitted to an
empty queue is fully enqueued, and after the writer drains, the (initially
empty) log file holds exactly one line per envelope, in order; each line is
a JSON object and deserializes back to the original envelope. -/
theorem c8_logger_durability (events : List TimestampedEvent)
    (h : events.length ≤ queueCapacity) :
    writerDrain (submitAll events []) [] = events.map TimestampedEvent.toJson ∧
    (writerDrain (submitAll events []) []).length = events.length ∧
    (∀ j ∈ writerDrain (submitAll events []) [], ∃ fields, j = Json.obj fields) ∧
    (∀ e ∈ events, TimestampedEvent.fromJson e.toJson = some e) := by
  have hs : submitAll events [] = events := by
    have := submitAll_small events [] (by simpa using h)
    simpa using this
  have hd : writerDrain events [] = events.map TimestampedEvent.toJson := by
    simpa using writerDrain_map events []
  refine ⟨by rw [hs, hd], by rw [hs, hd]; simp, ?_, fun e _ => toJson_fromJson e⟩
  rw [hs, hd]
  intro j hj
  obtain ⟨e, _, rfl⟩ := List.mem_map.mp hj
  exact ⟨_, rfl⟩

/-- C8, witness: two concrete envelopes drain to exactly their two
serialized lines, each of which round-trips. -/
theorem c8_logger_durability_witness :
    writerDrain (submitAll [dummyEvent, ⟨"t2", "k2", "p2", c1Body⟩] []) [] =
      [dummyEvent.toJson, Json.obj [("timestamp", .str "t2"), ("event_type", .str "k2"),
        ("pane_id", .str "p2"), ("event", c1Body)]] ∧
    TimestampedEvent.fromJson dummyEvent.toJson = some dummyEvent :=
  ⟨(c8_logger_durability [dummyEvent, ⟨"t2", "k2", "p2", c1Body⟩] (by decide)).1,
    (c8_logger_durability [dummyEvent, ⟨"t2", "k2", "p2", c1Body⟩] (by decide)).2.2.2
      dummyEvent (List.mem_cons_self _ _)⟩

end Barrel
